import Mathlib

/-!
# Verification of the Hot-and-Cold geo-guessing game (`src/app.js`)

A shallow embedding of the single source file `app.js`.

Modelling conventions:
* JavaScript numbers are modelled exactly: the feedback engine
  (heat, labels, colours, radii, degree formatting) is pure field
  arithmetic and is embedded over `ℚ`, so every definition is
  executable; the haversine distance `distanceMeters` involves
  transcendental functions and is embedded over `ℝ`.
* `Math.round x = ⌊x + 1/2⌋` in JavaScript, which coincides with
  Mathlib's `round`.
* A JavaScript value passed to `setTarget` is modelled by `JSVal`
  (`typeof NaN === "number"`, so `NaN` is a number-typed value);
  a number that may be NaN is modelled by `JSNum`.
* Calls into the Leaflet library (tile layer, `map.setView`,
  popup options, the `opts.debug` marker) are display-side effects
  outside the modelled game state; the game state tracked by the
  script is `TARGET`, `prevDistance`, `lastMarker`, `lastCircle`.
-/

namespace HotCold

/-- A JavaScript number: either an actual rational value or NaN. -/
inductive JSNum where
  | num (x : ℚ)
  | nan
  deriving DecidableEq, Repr

/-- A JavaScript value as far as `setTarget`'s `typeof` test can
distinguish it: a (non-NaN) number, NaN, a string, or anything else. -/
inductive JSVal where
  | num (x : ℚ)
  | nan
  | str (s : String)
  | other
  deriving DecidableEq, Repr

/-- `typeof v === "number"` — true for NaN as well. -/
def JSVal.isNumber : JSVal → Bool
  | .num _ => true
  | .nan => true
  | _ => false

/-- The numeric value of a number-typed `JSVal` (junk `.nan` on
non-number values, which `setTarget` never reaches past its guard). -/
def JSVal.toJSNum : JSVal → JSNum
  | .num x => .num x
  | _ => .nan

/-- A coordinate as delivered by a map click (`e.latlng`): a pair of
rational degree values. -/
structure Coord where
  lat : ℚ
  lng : ℚ
  deriving DecidableEq, Repr

/-- The target coordinate stored in the mutable `TARGET` binding; after
`setTarget` it may contain NaN components, hence `JSNum` fields. -/
structure JSCoord where
  lat : JSNum
  lng : JSNum
  deriving DecidableEq, Repr

/-- `TARGET` initial value (app.js line 9):
`{ lat: 32 + 42.568 / 60, lng: 35 + 6.469 / 60 }`. -/
def TARGET : JSCoord := { lat := .num (32 + 42.568 / 60), lng := .num (35 + 6.469 / 60) }

/-- `FOUND_RADIUS_METERS = 20` (app.js line 10). -/
def FOUND_RADIUS_METERS : ℚ := 20

/-- `HOT_RADIUS_METERS = 1200` (app.js line 11). -/
def HOT_RADIUS_METERS : ℚ := 1200

/-- Heat computation (app.js lines 89–90):
`raw = 1 - Math.min(d, HOT_RADIUS_METERS) / HOT_RADIUS_METERS;`
`heat = Math.max(0, Math.min(1, raw))`. -/
def computeHeat (d : ℚ) : ℚ :=
  let raw := 1 - min d HOT_RADIUS_METERS / HOT_RADIUS_METERS
  max 0 (min 1 raw)

/-- Title selection (app.js lines 93–115): `FOUND!` within the reveal
radius; otherwise an absolute heat tier on a first guess, or a
warmer/colder comparison against the previous distance with a 0.5 m
tolerance. -/
def chooseTitle (d heat : ℚ) (prevDistance : Option ℚ) : String :=
  if d ≤ FOUND_RADIUS_METERS then
    "FOUND!"
  else
    match prevDistance with
    | none =>
      if heat ≥ 0.72 then "Very Hot"
      else if heat ≥ 0.36 then "Warm"
      else "Cold"
    | some prev =>
      let EPS : ℚ := 0.5
      if d < prev - EPS then "Warmer"
      else if d > prev + EPS then "Colder"
      else "Same"

/-- An rgb colour triple; `app.js` renders it as the string
`rgb(r,g,b)`. -/
structure RGB where
  r : ℤ
  g : ℤ
  b : ℤ
  deriving DecidableEq, Repr

/-- The cold endpoint `#2c98f0` (app.js line 65). -/
def coldColor : RGB := { r := 0x2c, g := 0x98, b := 0xf0 }

/-- The hot endpoint `#e24b4b` (app.js line 66). -/
def hotColor : RGB := { r := 0xe2, g := 0x4b, b := 0x4b }

/-- Colour interpolation (app.js lines 64–71): per-channel
`Math.round(cold + (hot - cold) * t)`. -/
def lerpColor (t : ℚ) : RGB :=
  { r := round ((coldColor.r : ℚ) + ((hotColor.r : ℚ) - (coldColor.r : ℚ)) * t)
    g := round ((coldColor.g : ℚ) + ((hotColor.g : ℚ) - (coldColor.g : ℚ)) * t)
    b := round ((coldColor.b : ℚ) + ((hotColor.b : ℚ) - (coldColor.b : ℚ)) * t) }

/-- The CSS string `rgb(r,g,b)` returned by `lerpColor` in app.js. -/
def RGB.css (c : RGB) : String :=
  "rgb(" ++ toString c.r ++ "," ++ toString c.g ++ "," ++ toString c.b ++ ")"

/-- `Number.prototype.toFixed(3)` on a nonnegative value: the nearest
multiple of 1/1000 (ties to the larger numerator), printed with exactly
three digits after the decimal point. -/
def toFixed3abs (x : ℚ) : String :=
  let n : ℤ := ⌊x * 1000 + 1 / 2⌋
  let k : ℕ := (n % 1000).toNat
  toString (n / 1000) ++ "." ++
    String.mk [Nat.digitChar (k / 100), Nat.digitChar (k / 10 % 10), Nat.digitChar (k % 10)]

/-- `Number.prototype.toFixed(3)` on a rational value (the spec of
ECMA-262 `toFixed` for inputs below 10^21: sign peeled off first,
then nearest multiple of 1/1000 with ties away from zero). -/
def toFixed3 (x : ℚ) : String :=
  if x < 0 then "-" ++ toFixed3abs (-x) else toFixed3abs x

/-- Degree formatting (app.js lines 164–171): `D° MM.mmm'` built from
the absolute value (`deg = Math.floor(abs)`, `minutes = (abs-deg)*60`
with `toFixed(3)`), with the suffix `W/S` appended exactly when the
input is negative — the same for a latitude and a longitude, since the
function has no axis parameter. -/
def formatDeg (latOrLng : ℚ) : String :=
  let a := |latOrLng|
  let deg : ℤ := ⌊a⌋
  let minutes := (a - deg) * 60
  toString deg ++ "° " ++ toFixed3 minutes ++ "\x27" ++
    (if latOrLng < 0 then "W/S" else "")

/-- `formatDeg` applied to a possibly-NaN stored coordinate: in JS,
`Math.floor NaN = NaN` and `NaN.toFixed(3) = "NaN"`, and `NaN < 0` is
false, so the output is `NaN° NaN'`. -/
def formatDegJS : JSNum → String
  | .num q => formatDeg q
  | .nan => "NaN° NaN\x27"

/-- The circle marker drawn at the click (app.js lines 123–129). -/
structure Marker where
  center : Coord
  radius : ℤ
  fillColor : String
  color : String
  weight : ℚ
  fillOpacity : ℚ
  deriving DecidableEq, Repr

/-- The distance ring drawn at the click (app.js lines 132–138). -/
structure Ring where
  center : Coord
  radius : ℚ
  color : String
  weight : ℚ
  opacity : ℚ
  fill : Bool
  deriving DecidableEq, Repr

/-- The popup opened at the click (app.js lines 146–157); the display
options (closeButton, autoClose, className, maxWidth) are Leaflet
configuration with no game-state content. -/
structure Popup where
  latlng : Coord
  content : String
  deriving DecidableEq, Repr

/-- The mutable module-level state of app.js: `TARGET` (line 9),
`prevDistance` (line 78), `lastMarker` and `lastCircle`
(lines 74–75). -/
structure GameState where
  target : JSCoord
  prevDistance : Option ℚ
  lastMarker : Option Marker
  lastCircle : Option Ring
  deriving DecidableEq, Repr

/-- The state at module load: initial `TARGET`, no previous distance,
no drawn overlays. -/
def initialState : GameState :=
  { target := TARGET, prevDistance := none, lastMarker := none, lastCircle := none }

/-- The values computed by one `onMapClick` call, including the
intermediate `heat`, `title`, `color` and `body` locals of app.js. -/
structure ClickResult where
  d : ℚ
  heat : ℚ
  title : String
  color : RGB
  marker : Marker
  ring : Ring
  body : String
  popup : Popup
  deriving DecidableEq, Repr

/-- The popup body on a find (app.js line 143):
``Coordinates: N ${formatDeg(TARGET.lat)}  E ${formatDeg(TARGET.lng)}``. -/
def foundBody (target : JSCoord) : String :=
  "Coordinates: N " ++ formatDegJS target.lat ++ "  E " ++ formatDegJS target.lng

/-- The popup HTML (app.js lines 154–156): the JS truthiness test
`body ? long : short` treats exactly the empty string as falsy. -/
def popupContent (title body : String) : String :=
  if body = "" then "<strong>" ++ title ++ "</strong>"
  else "<strong>" ++ title ++ "</strong><div style=\"margin-top:6px;white-space:pre-line\">"
    ++ body ++ "</div>"

/-- The `onMapClick` handler (app.js lines 80–161) as a state
transition. In the source, `d = distanceMeters(clicked, TARGET)`
(a float computed by the transcendental haversine formula, embedded
separately over `ℝ` below); the rest of the handler is exact field
arithmetic in `d`, so the handler is modelled as a function of the
clicked point and its distance `d`. The source removes the previous
marker and ring (lines 85–86) and draws new ones; the net effect on
the modelled overlay state is replacement. `prevDistance` is assigned
`d` on line 160, after `title` was computed from the old value. -/
def onMapClick (clicked : Coord) (d : ℚ) (s : GameState) : ClickResult × GameState :=
  let heat := computeHeat d
  let title := chooseTitle d heat s.prevDistance
  let color := lerpColor heat
  let markerRadius : ℤ := 6 + round (6 * heat)
  let ringRadius : ℚ := min (max 20 d) 300
  let marker : Marker :=
    { center := clicked, radius := markerRadius, fillColor := color.css,
      color := "#fff", weight := 2, fillOpacity := 0.95 }
  let ring : Ring :=
    { center := clicked, radius := ringRadius, color := color.css,
      weight := 1.4, opacity := 0.35 + 0.5 * heat, fill := false }
  let body := if d ≤ FOUND_RADIUS_METERS then foundBody s.target else ""
  let popup : Popup := { latlng := clicked, content := popupContent title body }
  (⟨d, heat, title, color, marker, ring, body, popup⟩,
   { s with prevDistance := some d, lastMarker := some marker, lastCircle := some ring })

/-- The `opts.recenter` value, compared with `=== true` and
`=== "center"` in the source. -/
inductive RecenterOpt where
  | undef
  | boolTrue
  | centerString
  | other
  deriving DecidableEq, Repr

/-- The options bag of `setTarget` (app.js line 209). -/
structure SetTargetOpts where
  recenter : RecenterOpt := .undef
  zoom : Option ℚ := none
  debug : Bool := false
  deriving DecidableEq, Repr

/-- The warning printed by `setTarget` on non-numeric input. -/
def warnNumeric : String := "setTarget requires numeric lat and lng"

/-- `setTarget` (app.js lines 209–238) as a state transition, also
returning the list of `console.warn` messages. On the failed `typeof`
guard it warns and returns before touching any state; otherwise it
replaces `TARGET`, clears both overlays and resets `prevDistance`.
The `opts.recenter` / `opts.zoom` / `opts.debug` branches only issue
`map.setView` and `L.marker` calls into the Leaflet library
(lines 228–237) and read, never write, the modelled game state. -/
def setTarget (lat lng : JSVal) (opts : SetTargetOpts) (s : GameState) :
    GameState × List String :=
  if !lat.isNumber || !lng.isNumber then
    (s, [warnNumeric])
  else
    ({ target := { lat := lat.toJSNum, lng := lng.toJSNum },
       prevDistance := none, lastMarker := none, lastCircle := none }, [])

/-- A coordinate with real-valued components, for the transcendental
distance computation. -/
structure RCoord where
  lat : ℝ
  lng : ℝ

/-- `Math.atan2(y, x)` on real (non-NaN, finite) inputs, per the JS
specification: the angle of the point `(x, y)` in `(-π, π]`, with
`atan2(0, 0) = 0`. -/
noncomputable def atan2 (y x : ℝ) : ℝ :=
  if 0 < x then Real.arctan (y / x)
  else if x < 0 then
    (if 0 ≤ y then Real.arctan (y / x) + Real.pi else Real.arctan (y / x) - Real.pi)
  else
    (if 0 < y then Real.pi / 2 else if y < 0 then -(Real.pi / 2) else 0)

/-- The haversine distance (app.js lines 49–61): Earth radius
6,371,000 m, `c = 2 * atan2(sqrt(aa), sqrt(1 - aa))` with
`aa = sin²(dLat/2) + cos(lat1)·cos(lat2)·sin²(dLon/2)`. -/
noncomputable def distanceMeters (a b : RCoord) : ℝ :=
  let R : ℝ := 6371000
  let toRad : ℝ → ℝ := fun d => d * Real.pi / 180
  let dLat := toRad (b.lat - a.lat)
  let dLon := toRad (b.lng - a.lng)
  let lat1 := toRad a.lat
  let lat2 := toRad b.lat
  let sinDlat := Real.sin (dLat / 2)
  let sinDlon := Real.sin (dLon / 2)
  let aa := sinDlat * sinDlat + Real.cos lat1 * Real.cos lat2 * sinDlon * sinDlon
  let c := 2 * atan2 (Real.sqrt aa) (Real.sqrt (1 - aa))
  R * c

/-- The `aa` haversine subterm of `distanceMeters`, named so the
symmetry argument can be stated about it. -/
noncomputable def hav (a b : RCoord) : ℝ :=
  Real.sin ((b.lat - a.lat) * Real.pi / 180 / 2) * Real.sin ((b.lat - a.lat) * Real.pi / 180 / 2) +
    Real.cos (a.lat * Real.pi / 180) * Real.cos (b.lat * Real.pi / 180) *
      Real.sin ((b.lng - a.lng) * Real.pi / 180 / 2) * Real.sin ((b.lng - a.lng) * Real.pi / 180 / 2)

/-- A sample non-initial state: one guess recorded 500 m away, with its
marker and ring still drawn.  Used to instantiate theorems about the
reset behaviour of `setTarget`. -/
def dirtyMarker : Marker :=
  { center := ⟨1, 2⟩, radius := 8, fillColor := "rgb(44,152,240)",
    color := "#fff", weight := 2, fillOpacity := 0.95 }

/-- The ring companion of `dirtyMarker`. -/
def dirtyRing : Ring :=
  { center := ⟨1, 2⟩, radius := 300, color := "rgb(44,152,240)",
    weight := 1.4, opacity := 0.35, fill := false }

/-- A game state mid-game: previous distance recorded and overlays
drawn. -/
def dirtyState : GameState :=
  { target := TARGET, prevDistance := some 500,
    lastMarker := some dirtyMarker, lastCircle := some dirtyRing }

/-- The invalid (string-typed) argument of the specification example
`setTarget(32.71, "35.11")`. -/
def stringArg3511 : String := "35.11"

/-! ## Helper lemmas -/

/-- Unfolding lemma for `computeHeat` with the hot radius inlined. -/
theorem computeHeat_eq (d : ℚ) :
    computeHeat d = max 0 (min 1 (1 - min d 1200 / 1200)) := rfl

/-- `distanceMeters` written through the named `hav` subterm. -/
theorem distanceMeters_hav (a b : RCoord) :
    distanceMeters a b =
      6371000 * (2 * atan2 (Real.sqrt (hav a b)) (Real.sqrt (1 - hav a b))) := rfl

/-- The haversine subterm vanishes on coincident points. -/
theorem hav_self (a : RCoord) : hav a a = 0 := by
  unfold hav
  simp

/-- The haversine subterm is symmetric: the two squared sines absorb
the sign flip of the coordinate differences, and the cosine product
commutes. -/
theorem hav_comm (a b : RCoord) : hav a b = hav b a := by
  have h1 : Real.sin ((b.lat - a.lat) * Real.pi / 180 / 2) =
      -Real.sin ((a.lat - b.lat) * Real.pi / 180 / 2) := by
    rw [show (b.lat - a.lat) * Real.pi / 180 / 2 =
      -((a.lat - b.lat) * Real.pi / 180 / 2) by ring, Real.sin_neg]
  have h2 : Real.sin ((b.lng - a.lng) * Real.pi / 180 / 2) =
      -Real.sin ((a.lng - b.lng) * Real.pi / 180 / 2) := by
    rw [show (b.lng - a.lng) * Real.pi / 180 / 2 =
      -((a.lng - b.lng) * Real.pi / 180 / 2) by ring, Real.sin_neg]
  unfold hav
  rw [h1, h2]
  ring

/-- The found-popup body is never the empty string (it starts with
`Coordinates: N `). -/
theorem foundBody_ne_empty (t : JSCoord) : foundBody t ≠ "" := by
  intro h
  have hl := congrArg String.length h
  have h15 : ("Coordinates: N " : String).length = 15 := rfl
  simp [foundBody, String.length_append, h15] at hl

/-- The feedback title is the literal `FOUND!` exactly on distances
within the reveal radius, whatever the heat and history. -/
theorem chooseTitle_eq_found_iff (d heat : ℚ) (prev : Option ℚ) :
    chooseTitle d heat prev = "FOUND!" ↔ d ≤ FOUND_RADIUS_METERS := by
  unfold chooseTitle
  by_cases hd : d ≤ FOUND_RADIUS_METERS
  · rw [if_pos hd]
    exact iff_of_true rfl hd
  · rw [if_neg hd]
    cases prev with
    | none =>
      show (if heat ≥ 0.72 then "Very Hot" else if heat ≥ 0.36 then "Warm" else "Cold") =
          "FOUND!" ↔ d ≤ FOUND_RADIUS_METERS
      split_ifs <;> exact iff_of_false (by decide) hd
    | some p =>
      show (if d < p - 0.5 then "Warmer" else if d > p + 0.5 then "Colder" else "Same") =
          "FOUND!" ↔ d ≤ FOUND_RADIUS_METERS
      split_ifs <;> exact iff_of_false (by decide) hd

/-! ## Claims -/

/-- C1 counterexample: at a guess with distance 0 (inside the reveal
radius) the title is the literal `FOUND!`, not `FOUND`: the claimed
equivalence `label = "FOUND" ↔ d ≤ 20` fails at `d = 0`. -/
theorem found_label_literal_counterexample :
    ¬ ((chooseTitle 0 (computeHeat 0) none = "FOUND") ↔
        (0 : ℚ) ≤ FOUND_RADIUS_METERS) := by
  intro h
  have h2 : chooseTitle 0 (computeHeat 0) none = "FOUND" :=
    h.mpr (by norm_num [FOUND_RADIUS_METERS])
  rw [chooseTitle, if_pos (by norm_num [FOUND_RADIUS_METERS] : (0:ℚ) ≤ FOUND_RADIUS_METERS)] at h2
  exact absurd h2 (by decide)

/-- C1 (amended): the feedback title is the literal `FOUND!` if and only
if the distance `d` of the guess satisfies `d ≤ 20` (the reveal radius),
regardless of the heat and of whether a previous distance is recorded;
and exactly in that case the popup body is the target's formatted
coordinates (otherwise it is empty), the popup content being built from
the title and that body. -/
theorem found_reveal_iff (d heat : ℚ) (prev : Option ℚ) (clicked : Coord) (s : GameState) :
    (chooseTitle d heat prev = "FOUND!" ↔ d ≤ FOUND_RADIUS_METERS) ∧
    ((onMapClick clicked d s).1.body = foundBody s.target ↔ d ≤ FOUND_RADIUS_METERS) ∧
    ((onMapClick clicked d s).1.body = "" ↔ ¬ d ≤ FOUND_RADIUS_METERS) ∧
    (onMapClick clicked d s).1.popup.content =
      popupContent (onMapClick clicked d s).1.title (onMapClick clicked d s).1.body := by
  have hbody : (onMapClick clicked d s).1.body =
      (if d ≤ FOUND_RADIUS_METERS then foundBody s.target else "") := rfl
  refine ⟨chooseTitle_eq_found_iff d heat prev, ?_, ?_, rfl⟩
  · rw [hbody]
    by_cases hd : d ≤ FOUND_RADIUS_METERS
    · rw [if_pos hd]
      exact iff_of_true rfl hd
    · rw [if_neg hd]
      exact iff_of_false (fun h => foundBody_ne_empty s.target h.symm) hd
  · rw [hbody]
    by_cases hd : d ≤ FOUND_RADIUS_METERS
    · rw [if_pos hd]
      exact iff_of_false (foundBody_ne_empty s.target) (not_not_intro hd)
    · rw [if_neg hd]
      exact iff_of_true rfl hd

/-- C2: for a guess beyond the reveal radius, a first guess gets the
absolute heat-tier label (`Very Hot` at heat ≥ 0.72, `Warm` on
[0.36, 0.72), `Cold` below), and a guess with a recorded previous
distance gets the 0.5 m tolerance comparison (`Warmer` below
`prev - 0.5`, `Colder` above `prev + 0.5`, `Same` within the band). -/
theorem first_and_subsequent_guess_labels (d : ℚ) (hd : FOUND_RADIUS_METERS < d) :
    (computeHeat d ≥ 0.72 → chooseTitle d (computeHeat d) none = "Very Hot") ∧
    (0.36 ≤ computeHeat d ∧ computeHeat d < 0.72 →
      chooseTitle d (computeHeat d) none = "Warm") ∧
    (computeHeat d < 0.36 → chooseTitle d (computeHeat d) none = "Cold") ∧
    ∀ prev : ℚ,
      (d < prev - 0.5 → chooseTitle d (computeHeat d) (some prev) = "Warmer") ∧
      (d > prev + 0.5 → chooseTitle d (computeHeat d) (some prev) = "Colder") ∧
      (|d - prev| ≤ 0.5 → chooseTitle d (computeHeat d) (some prev) = "Same") := by
  have hnd : ¬ d ≤ FOUND_RADIUS_METERS := not_le.mpr hd
  unfold chooseTitle
  refine ⟨?_, ?_, ?_, fun prev => ⟨?_, ?_, ?_⟩⟩ <;> intro h <;> rw [if_neg hnd]
  · rw [if_pos h]
  · rw [if_neg (not_le.mpr h.2), if_pos h.1]
  · rw [if_neg (not_le.mpr (h.trans (by norm_num))), if_neg (not_le.mpr h)]
  · show (if d < prev - 0.5 then "Warmer" else if d > prev + 0.5 then "Colder" else "Same") = "Warmer"
    rw [if_pos h]
  · show (if d < prev - 0.5 then "Warmer" else if d > prev + 0.5 then "Colder" else "Same") = "Colder"
    rw [if_neg (by push_neg; linarith : ¬ d < prev - 0.5), if_pos h]
  · show (if d < prev - 0.5 then "Warmer" else if d > prev + 0.5 then "Colder" else "Same") = "Same"
    rw [abs_le] at h
    rw [if_neg (by push_neg; linarith), if_neg (by push_neg; linarith)]

/-- C2 witness: at the concrete first guess `d = 100` (heat 11/12) the
label is `Very Hot`, and at the concrete follow-up guess `d = 400`
after a 500 m guess the label is `Warmer`. -/
theorem first_and_subsequent_guess_labels_witness :
    FOUND_RADIUS_METERS < (100 : ℚ) ∧
    chooseTitle 100 (computeHeat 100) none = "Very Hot" ∧
    chooseTitle 400 (computeHeat 400) (some 500) = "Warmer" := by
  refine ⟨by norm_num [FOUND_RADIUS_METERS], ?_, ?_⟩
  · exact (first_and_subsequent_guess_labels 100 (by norm_num [FOUND_RADIUS_METERS])).1
      (by rw [computeHeat_eq]; norm_num)
  · exact ((first_and_subsequent_guess_labels 400
      (by norm_num [FOUND_RADIUS_METERS])).2.2.2 500).1 (by norm_num)

/-- C3: for every distance `d ≥ 0`, `heat = clamp01(1 - min(d,1200)/1200)`;
`heat = 1` at `d = 0`, `heat = 0` for every `d ≥ 1200` (the hot radius),
and `heat` is monotonically non-increasing in `d`. -/
theorem heat_formula_endpoints_antitone (d : ℚ) (hd : 0 ≤ d) :
    computeHeat d = max 0 (min 1 (1 - min d HOT_RADIUS_METERS / HOT_RADIUS_METERS)) ∧
    computeHeat 0 = 1 ∧
    (HOT_RADIUS_METERS ≤ d → computeHeat d = 0) ∧
    ∀ d2 : ℚ, d ≤ d2 → computeHeat d2 ≤ computeHeat d := by
  refine ⟨rfl, by rw [computeHeat_eq]; norm_num, ?_, ?_⟩
  · intro h
    have h12 : (1200 : ℚ) ≤ d := h
    rw [computeHeat_eq, min_eq_right h12]
    norm_num
  · intro d2 h
    rw [computeHeat_eq, computeHeat_eq]
    gcongr

/-- C3 witness: at the concrete distance 1500 ≥ 0, the heat is 0 since
1500 exceeds the hot radius. -/
theorem heat_formula_endpoints_antitone_witness :
    (0 : ℚ) ≤ 1500 ∧ computeHeat 1500 = 0 :=
  ⟨by norm_num,
   (heat_formula_endpoints_antitone 1500 (by norm_num)).2.2.1
     (by norm_num [HOT_RADIUS_METERS])⟩

/-- C4: every guess-handling call computes its title from the
previous-distance value held before the call, and leaves the
previous-distance equal to this guess's distance `d` — including a
found guess, since the statement quantifies over all `d`. -/
theorem label_uses_old_prev_then_updates (clicked : Coord) (d : ℚ) (s : GameState) :
    (onMapClick clicked d s).1.title = chooseTitle d (computeHeat d) s.prevDistance ∧
    (onMapClick clicked d s).2.prevDistance = some d :=
  ⟨rfl, rfl⟩

/-- C8: the colour applied to both the marker fill and the ring stroke
is the per-channel rounded linear interpolation between the cold colour
`#2c98f0 = rgb(44,152,240)` and the hot colour `#e24b4b = rgb(226,75,75)`
at `t = heat`, which equals the cold colour exactly at `t = 0` and the
hot colour exactly at `t = 1`. -/
theorem marker_ring_color_lerp (t : ℚ) (clicked : Coord) (d : ℚ) (s : GameState) :
    lerpColor t = ⟨round ((44 : ℚ) + (226 - 44) * t), round ((152 : ℚ) + (75 - 152) * t),
      round ((240 : ℚ) + (75 - 240) * t)⟩ ∧
    lerpColor 0 = coldColor ∧ lerpColor 1 = hotColor ∧
    (onMapClick clicked d s).1.marker.fillColor = (lerpColor (computeHeat d)).css ∧
    (onMapClick clicked d s).1.ring.color = (lerpColor (computeHeat d)).css := by
  refine ⟨?_, by norm_num [lerpColor, coldColor, hotColor], by norm_num [lerpColor, coldColor, hotColor], rfl, rfl⟩
  simp only [lerpColor, coldColor, hotColor, RGB.mk.injEq]
  norm_num

/-- C6: a `setTarget` call in which `lat` or `lng` fails the `typeof`
number test does not change any state (target, previous distance,
overlays are all exactly as before) and only logs the warning; the
model is a total function, matching the no-throw behaviour of the
early `return`. -/
theorem setTarget_invalid_noop (lat lng : JSVal) (opts : SetTargetOpts) (s : GameState)
    (h : lat.isNumber = false ∨ lng.isNumber = false) :
    setTarget lat lng opts s = (s, [warnNumeric]) := by
  unfold setTarget
  rcases h with h | h <;> simp [h]

/-- C6 witness: calling `setTarget` with a string second argument on a
mid-game state leaves that state untouched and logs the warning. -/
theorem setTarget_invalid_noop_witness :
    (JSVal.str stringArg3511).isNumber = false ∧
    setTarget (JSVal.num 32.71) (JSVal.str stringArg3511) {} dirtyState =
      (dirtyState, [warnNumeric]) :=
  ⟨rfl, setTarget_invalid_noop _ _ _ _ (Or.inr rfl)⟩

/-- C7: a `setTarget` call with numeric arguments installs the new
target, removes the drawn marker and ring, resets the previous distance
to none, and therefore the next non-found guess is labelled as a first
guess by the absolute heat tier — never `Warmer`, `Colder` or `Same`. -/
theorem setTarget_resets_state (lat lng : ℚ) (opts : SetTargetOpts) (s : GameState) :
    (setTarget (JSVal.num lat) (JSVal.num lng) opts s).1.target =
      ⟨JSNum.num lat, JSNum.num lng⟩ ∧
    (setTarget (JSVal.num lat) (JSVal.num lng) opts s).1.lastMarker = none ∧
    (setTarget (JSVal.num lat) (JSVal.num lng) opts s).1.lastCircle = none ∧
    (setTarget (JSVal.num lat) (JSVal.num lng) opts s).1.prevDistance = none ∧
    ∀ d : ℚ, FOUND_RADIUS_METERS < d → ∀ clicked : Coord,
      (onMapClick clicked d (setTarget (JSVal.num lat) (JSVal.num lng) opts s).1).1.title =
        (if computeHeat d ≥ 0.72 then "Very Hot"
         else if computeHeat d ≥ 0.36 then "Warm" else "Cold") ∧
      (onMapClick clicked d (setTarget (JSVal.num lat) (JSVal.num lng) opts s).1).1.title ≠ "Warmer" ∧
      (onMapClick clicked d (setTarget (JSVal.num lat) (JSVal.num lng) opts s).1).1.title ≠ "Colder" ∧
      (onMapClick clicked d (setTarget (JSVal.num lat) (JSVal.num lng) opts s).1).1.title ≠ "Same" := by
  refine ⟨rfl, rfl, rfl, rfl, fun d hd clicked => ?_⟩
  have hnd : ¬ d ≤ FOUND_RADIUS_METERS := not_le.mpr hd
  have htitle :
      (onMapClick clicked d (setTarget (JSVal.num lat) (JSVal.num lng) opts s).1).1.title =
        chooseTitle d (computeHeat d) none := rfl
  have h2 : chooseTitle d (computeHeat d) none =
      (if computeHeat d ≥ 0.72 then "Very Hot"
       else if computeHeat d ≥ 0.36 then "Warm" else "Cold") := by
    unfold chooseTitle
    rw [if_neg hnd]
  rw [htitle, h2]
  refine ⟨rfl, ?_, ?_, ?_⟩ <;> split_ifs <;> decide

/-- C7 witness: after `setTarget(32.71, 35.11)` on a mid-game state
(which had a 500 m previous distance), a guess at 100 m is labelled
`Very Hot`, not compared against the stale previous distance. -/
theorem setTarget_resets_state_witness :
    FOUND_RADIUS_METERS < (100 : ℚ) ∧
    (setTarget (JSVal.num 32.71) (JSVal.num 35.11) {} dirtyState).1.prevDistance = none ∧
    (onMapClick ⟨1, 2⟩ 100 (setTarget (JSVal.num 32.71) (JSVal.num 35.11) {} dirtyState).1).1.title =
      "Very Hot" := by
  refine ⟨by norm_num [FOUND_RADIUS_METERS],
    (setTarget_resets_state 32.71 35.11 {} dirtyState).2.2.2.1, ?_⟩
  have h := ((setTarget_resets_state 32.71 35.11 {} dirtyState).2.2.2.2 100
    (by norm_num [FOUND_RADIUS_METERS]) ⟨1, 2⟩).1
  rw [h, if_pos (by rw [computeHeat_eq]; norm_num : computeHeat (100 : ℚ) ≥ 0.72)]

/-- C10: `setTarget` accepts NaN, which is number-typed in JS: with a
NaN among number-typed arguments the call is not rejected — the target
is replaced by the NaN-containing coordinate and the previous distance
and overlays are cleared exactly as for a well-formed coordinate, with
no warning. -/
theorem setTarget_accepts_nan (lat lng : JSVal) (opts : SetTargetOpts) (s : GameState)
    (hnum : lat.isNumber = true ∧ lng.isNumber = true)
    (hnan : lat = JSVal.nan ∨ lng = JSVal.nan) :
    setTarget lat lng opts s =
      ({ target := { lat := lat.toJSNum, lng := lng.toJSNum },
         prevDistance := none, lastMarker := none, lastCircle := none }, []) ∧
    ((setTarget lat lng opts s).1.target.lat = JSNum.nan ∨
     (setTarget lat lng opts s).1.target.lng = JSNum.nan) := by
  have hmain : setTarget lat lng opts s =
      ({ target := { lat := lat.toJSNum, lng := lng.toJSNum },
         prevDistance := none, lastMarker := none, lastCircle := none }, []) := by
    unfold setTarget
    simp [hnum.1, hnum.2]
  refine ⟨hmain, ?_⟩
  rw [hmain]
  rcases hnan with h | h
  · left
    rw [h]
    rfl
  · right
    rw [h]
    rfl

/-- C10 witness: `setTarget(NaN, 35.11)` on a mid-game state installs
the NaN latitude and clears the previous distance and overlays, with no
warning. -/
theorem setTarget_accepts_nan_witness :
    JSVal.nan.isNumber = true ∧ (JSVal.num 35.11).isNumber = true ∧
    setTarget JSVal.nan (JSVal.num 35.11) {} dirtyState =
      ({ target := { lat := JSNum.nan, lng := JSNum.num 35.11 },
         prevDistance := none, lastMarker := none, lastCircle := none }, []) :=
  ⟨rfl, rfl,
   (setTarget_accepts_nan JSVal.nan (JSVal.num 35.11) {} dirtyState
     ⟨rfl, rfl⟩ (Or.inl rfl)).1⟩

/-- C9: the degree formatter outputs `D° MM.mmm'` — the integer degrees
of the absolute value, then the remaining minutes with exactly three
digits after the decimal point — and appends the suffix `W/S` exactly
when the input is negative, with no suffix on nonnegative input; the
formatter takes no axis argument, so the behaviour stated here for an
arbitrary value is identical for a latitude and a longitude. -/
theorem formatDeg_spec (q : ℚ) :
    formatDeg q = toString ⌊|q|⌋ ++ "° " ++ toFixed3 ((|q| - ⌊|q|⌋) * 60) ++ "\x27" ++
      (if q < 0 then "W/S" else "") ∧
    (∃ frac : String, frac.length = 3 ∧
      toFixed3 ((|q| - ⌊|q|⌋) * 60) =
        toString ((⌊(|q| - ⌊|q|⌋) * 60 * 1000 + 1 / 2⌋ : ℤ) / 1000) ++ "." ++ frac) ∧
    (0 ≤ q → formatDeg q =
      toString ⌊|q|⌋ ++ "° " ++ toFixed3 ((|q| - ⌊|q|⌋) * 60) ++ "\x27") ∧
    (q < 0 → formatDeg q =
      (toString ⌊|q|⌋ ++ "° " ++ toFixed3 ((|q| - ⌊|q|⌋) * 60) ++ "\x27") ++ "W/S") := by
  have h1 : formatDeg q = toString ⌊|q|⌋ ++ "° " ++ toFixed3 ((|q| - ⌊|q|⌋) * 60) ++ "\x27" ++
      (if q < 0 then "W/S" else "") := rfl
  have hm : 0 ≤ (|q| - (⌊|q|⌋ : ℚ)) * 60 :=
    mul_nonneg (sub_nonneg.mpr (Int.floor_le _)) (by norm_num)
  refine ⟨h1, ?_, ?_, ?_⟩
  · refine ⟨String.mk
      [Nat.digitChar (((⌊(|q| - (⌊|q|⌋ : ℚ)) * 60 * 1000 + 1 / 2⌋ : ℤ) % 1000).toNat / 100),
       Nat.digitChar (((⌊(|q| - (⌊|q|⌋ : ℚ)) * 60 * 1000 + 1 / 2⌋ : ℤ) % 1000).toNat / 10 % 10),
       Nat.digitChar (((⌊(|q| - (⌊|q|⌋ : ℚ)) * 60 * 1000 + 1 / 2⌋ : ℤ) % 1000).toNat % 10)],
      rfl, ?_⟩
    rw [toFixed3, if_neg (not_lt.mpr hm)]
    rfl
  · intro h
    rw [h1, if_neg (not_lt.mpr h), String.append_empty]
  · intro h
    rw [h1, if_pos h]

/-- C9 witness: the concrete negative value -5.5 formats as
`5° 30.000'` followed by the `W/S` suffix. -/
theorem formatDeg_spec_witness :
    (-5.5 : ℚ) < 0 ∧ formatDeg (-5.5) = "5° 30.000\x27W/S" := by
  refine ⟨by norm_num, ?_⟩
  have h := (formatDeg_spec (-5.5)).2.2.2 (by norm_num)
  rw [h]
  have h5 : |(-5.5 : ℚ)| = 5.5 := by norm_num
  rw [h5]
  have hfl : ⌊(5.5 : ℚ)⌋ = 5 := by norm_num
  rw [hfl]
  have harg : ((5.5 : ℚ) - ((5 : ℤ) : ℚ)) * 60 = 30 := by norm_num
  rw [harg]
  rw [toFixed3, if_neg (by norm_num : ¬ (30 : ℚ) < 0)]
  rw [toFixed3abs]
  have hfl2 : (⌊(30 : ℚ) * 1000 + 1 / 2⌋ : ℤ) = 30000 := by norm_num
  rw [hfl2]
  decide

/-- C5: the haversine distance vanishes on coincident coordinates and
is symmetric in its two arguments. -/
theorem distance_self_and_symm :
    (∀ a : RCoord, distanceMeters a a = 0) ∧
    (∀ a b : RCoord, distanceMeters a b = distanceMeters b a) := by
  constructor
  · intro a
    rw [distanceMeters_hav, hav_self, Real.sqrt_zero, sub_zero, Real.sqrt_one]
    unfold atan2
    rw [if_pos (by norm_num : (0 : ℝ) < 1), zero_div, Real.arctan_zero, mul_zero, mul_zero]
  · intro a b
    rw [distanceMeters_hav, distanceMeters_hav, hav_comm]

end HotCold
